import Mathlib

/-!
Shallow embedding of the WebGL-School tutorial samples (three.js exercises):
the scene-setup instancing loop of sample 009, the per-frame `render` steps of
samples 003/008/009 and of the challenge sample, the keyboard handlers that
drive the `isDown` flag, and the window-resize handler.  Numeric state is
embedded with exact rationals.
-/

namespace WebGLSchool

/-- A three-component vector of exact rationals, embedding the numeric state of
the library's `Vector3` (positions) and `Euler` (rotations) as the samples use
them. -/
@[ext]
structure Vec3 where
  x : ℚ
  y : ℚ
  z : ℚ
deriving DecidableEq, Repr

/-- A mesh node: references to its geometry and material objects by identifier
(`new THREE.Mesh(geometry, material)` stores references, not copies), plus the
transform state the samples touch.  A fresh mesh has position and rotation
`(0, 0, 0)`. -/
@[ext]
structure Mesh where
  geomId : Nat
  matId : Nat
  position : Vec3
  rotation : Vec3
deriving DecidableEq, Repr

/-- `TRANSFORM_SCALE` of sample 009's `init`. -/
def TRANSFORM_SCALE : ℚ := 5.0

/-- `TORUS_COUNT` of sample 009's `init`. -/
def TORUS_COUNT : Nat := 10

/-- `(Math.random() * 2.0 - 1.0) * TRANSFORM_SCALE`: one coordinate of the
instancing loop of sample 009, where `r` stands for the `Math.random()` draw. -/
def scatterCoord (r : ℚ) : ℚ := (r * 2.0 - 1.0) * TRANSFORM_SCALE

/-- What sample 009's `App3.init` constructs for the instancing lesson: the
identifiers of the geometry objects and material objects it allocated, and the
`boxArray` of mesh instances. -/
structure InitResources where
  geometries : List Nat
  materials : List Nat
  boxArray : List Mesh
deriving DecidableEq, Repr

/-- Embeds the instancing part of sample 009's `App3.init`: one
`new THREE.BoxGeometry(1.0, 1.0, 1.0)` (id 0), one
`new THREE.MeshPhongMaterial(...)` (id 0), then a `for` loop running `count`
times (`TORUS_COUNT` in the source) that builds one `THREE.Mesh` per iteration
from those same two objects, scatters its position with three `Math.random()`
draws (supplied here by the stream `rnd`), and pushes it onto `boxArray`.
No further geometry or material is constructed inside the loop. -/
def init009 (count : Nat) (rnd : Nat → ℚ × ℚ × ℚ) : InitResources :=
  let geomId : Nat := 0
  let matId : Nat := 0
  { geometries := [geomId]
  , materials := [matId]
  , boxArray := (List.range count).map (fun i =>
      let r := rnd i
      { geomId := geomId
      , matId := matId
      , position := { x := scatterCoord r.1, y := scatterCoord r.2.1, z := scatterCoord r.2.2 }
      , rotation := { x := 0, y := 0, z := 0 } }) }

/-- One observable action of a `render` invocation, in the order the source
executes them: `requestAnimationFrame(this.render)` (reschedule),
`this.controls.update()` (advance the orbit controls), the rotation block
guarded by `isDown`, and `this.renderer.render(this.scene, this.camera)`
(submit the frame). -/
inductive FrameAction where
  | reschedule
  | advanceControls
  | applyRotation
  | submitFrame
deriving DecidableEq, Repr

/-- `torus.rotation.y += 0.05`, the per-mesh mutation of the rotation block. -/
def rotateYBy005 (m : Mesh) : Mesh :=
  { m with rotation := { m.rotation with y := m.rotation.y + 0.05 } }

/-- The state sample 008's `render` reads and writes: the `isDown` flag and its
four meshes `box`, `sphere`, `torus`, `cone`. -/
@[ext]
structure State008 where
  isDown : Bool
  box : Mesh
  sphere : Mesh
  torus : Mesh
  cone : Mesh
deriving DecidableEq, Repr

/-- Embeds sample 008's `App3.render`: reschedule, advance the controls, then
— only when `isDown === true` — add `0.05` to `rotation.y` of each of `box`,
`sphere`, `torus`, `cone`, and finally submit the frame.  Returns the ordered
action trace together with the updated state. -/
def render008 (s : State008) : List FrameAction × State008 :=
  if s.isDown = true then
    ([FrameAction.reschedule, FrameAction.advanceControls,
      FrameAction.applyRotation, FrameAction.submitFrame],
     { s with box := rotateYBy005 s.box
            , sphere := rotateYBy005 s.sphere
            , torus := rotateYBy005 s.torus
            , cone := rotateYBy005 s.cone })
  else
    ([FrameAction.reschedule, FrameAction.advanceControls, FrameAction.submitFrame], s)

/-- The state sample 009's `render` reads and writes: the `isDown` flag and the
`boxArray` of instanced meshes. -/
@[ext]
structure State009 where
  isDown : Bool
  boxArray : List Mesh
deriving DecidableEq, Repr

/-- Embeds sample 009's `App3.render`: reschedule, advance the controls, then
— only when `isDown === true` — `this.boxArray.forEach((torus) =>
\x7b torus.rotation.y += 0.05 \x7d)`, and finally submit the frame. -/
def render009 (s : State009) : List FrameAction × State009 :=
  if s.isDown = true then
    ([FrameAction.reschedule, FrameAction.advanceControls,
      FrameAction.applyRotation, FrameAction.submitFrame],
     { s with boxArray := s.boxArray.map rotateYBy005 })
  else
    ([FrameAction.reschedule, FrameAction.advanceControls, FrameAction.submitFrame], s)

/-- Embeds sample 003's `App3.render` (no input flag, no rotation block):
reschedule, advance the controls, submit the frame. -/
def render003Trace : List FrameAction :=
  [FrameAction.reschedule, FrameAction.advanceControls, FrameAction.submitFrame]

/-- The state the challenge sample's `render` reads: the `isDown` flag and
every mesh attached to the scene. -/
@[ext]
structure ChallengeState where
  isDown : Bool
  meshes : List Mesh
deriving DecidableEq, Repr

/-- Embeds the challenge sample's `App3.render`: reschedule, advance the
controls, then the `if (this.isDown === true)` branch — whose body is empty
(only a comment) — and finally submit the frame.  No mesh is mutated in either
branch. -/
def renderChallenge (s : ChallengeState) : List FrameAction × ChallengeState :=
  if s.isDown = true then
    ([FrameAction.reschedule, FrameAction.advanceControls, FrameAction.submitFrame], s)
  else
    ([FrameAction.reschedule, FrameAction.advanceControls, FrameAction.submitFrame], s)

/-- A keyboard event as the samples' listeners receive it: the browser reports
a key string for both kinds of event. -/
inductive KeyEvent where
  | keydown (key : String)
  | keyup (key : String)
deriving DecidableEq, Repr

/-- Embeds the two key listeners registered in the samples' constructors: the
`keydown` listener switches on `keyEvent.key` and only `case ' '` sets
`this.isDown = true` (the `default` case does nothing); the `keyup` listener
unconditionally sets `this.isDown = false`, ignoring which key was released. -/
def handleKeyEvent (isDown : Bool) (e : KeyEvent) : Bool :=
  match e with
  | KeyEvent.keydown key => if key = " " then true else isDown
  | KeyEvent.keyup _ => false

/-- Runs a sequence of key events through the listeners, starting from the
flag value `isDown`. -/
def processKeyEvents (isDown : Bool) (events : List KeyEvent) : Bool :=
  events.foldl handleKeyEvent isDown

/-- The camera parameters the resize handler touches: the recorded `aspect`
field and the aspect ratio the projection matrix was last computed from
(`updateProjectionMatrix` rebuilds the matrix from the current fields). -/
@[ext]
structure PerspectiveCamera where
  aspect : ℚ
  projectionAspect : ℚ
deriving DecidableEq, Repr

/-- `camera.updateProjectionMatrix()`: recompute the projection matrix from the
camera's current parameters, modelled as recording the aspect it was built
from. -/
def updateProjectionMatrix (c : PerspectiveCamera) : PerspectiveCamera :=
  { c with projectionAspect := c.aspect }

/-- The renderer state the resize handler touches: the drawing-surface size. -/
@[ext]
structure Renderer where
  width : ℚ
  height : ℚ
deriving DecidableEq, Repr

/-- Renderer and camera together, as the resize listener sees them. -/
@[ext]
structure ViewState where
  renderer : Renderer
  camera : PerspectiveCamera
deriving DecidableEq, Repr

/-- Embeds the samples' `resize` listener:
`this.renderer.setSize(window.innerWidth, window.innerHeight)`, then
`this.camera.aspect = window.innerWidth / window.innerHeight`, then
`this.camera.updateProjectionMatrix()`; `w` and `h` stand for the new window
dimensions. -/
def onResize (v : ViewState) (w h : ℚ) : ViewState :=
  { renderer := { width := w, height := h }
  , camera := updateProjectionMatrix { v.camera with aspect := w / h } }

/-- `n` successive frame steps of sample 009 (state part of `render009`). -/
def steps009 (n : Nat) (s : State009) : State009 :=
  match n with
  | 0 => s
  | Nat.succ k => steps009 k (render009 s).2

/-- A deterministic random stream returning `1/2` for every draw; used to
evaluate the embedding on concrete inputs. -/
def rndHalf : Nat → ℚ × ℚ × ℚ := fun _ => (1/2, 1/2, 1/2)

/-- The mesh the instancing loop builds from the draw `(1/2, 1/2, 1/2)`:
`scatterCoord (1/2) = 0`, so it sits at the origin. -/
def meshZero : Mesh :=
  { geomId := 0, matId := 0
  , position := { x := 0, y := 0, z := 0 }
  , rotation := { x := 0, y := 0, z := 0 } }

/-- `meshZero` is the sole element of `boxArray` after `init009 1 rndHalf`. -/
theorem meshZero_mem_init009 : meshZero ∈ (init009 1 rndHalf).boxArray := by
  have h1 : List.range 1 = [0] := rfl
  simp only [init009, rndHalf, h1, List.map_cons, List.map_nil,
    List.mem_singleton, meshZero]
  norm_num [Mesh.ext_iff, Vec3.ext_iff, scatterCoord, TRANSFORM_SCALE]

/-- C1: for every count `N` of instanced nodes built by sample 009's setup,
exactly one geometry object and one material object (one per distinct visual
style; sample 009 has a single style) are constructed, every one of the `N`
meshes references that same shared geometry and material, and the
geometry/material construction count does not grow with `N`. -/
theorem c1_instancing_shared_resources (count : Nat) (rnd : Nat → ℚ × ℚ × ℚ) :
    (init009 count rnd).geometries = [0] ∧
    (init009 count rnd).materials = [0] ∧
    (init009 count rnd).boxArray.length = count ∧
    ∀ m ∈ (init009 count rnd).boxArray, m.geomId = 0 ∧ m.matId = 0 := by
  refine ⟨rfl, rfl, by simp [init009], ?_⟩
  intro m hm
  simp only [init009, List.mem_map, List.mem_range] at hm
  obtain ⟨i, _, rfl⟩ := hm
  exact ⟨rfl, rfl⟩

/-- Witness for C1 at `count = 1`, `rnd = rndHalf`, node `meshZero`. -/
theorem c1_instancing_shared_resources_witness :
    meshZero ∈ (init009 1 rndHalf).boxArray ∧
    (meshZero.geomId = 0 ∧ meshZero.matId = 0) :=
  ⟨meshZero_mem_init009,
   (c1_instancing_shared_resources 1 rndHalf).2.2.2 meshZero meshZero_mem_init009⟩

/-- C2: while `isDown` is true, one frame step adds exactly `0.05` to the
y-rotation of every animatable node — all four meshes of sample 008 and every
`boxArray` element of sample 009 — with the identical increment for all of
them in that step. -/
theorem c2_uniform_rotation_increment (s8 : State008) (s9 : State009)
    (h8 : s8.isDown = true) (h9 : s9.isDown = true) :
    ((render008 s8).2.box.rotation.y = s8.box.rotation.y + 0.05 ∧
     (render008 s8).2.sphere.rotation.y = s8.sphere.rotation.y + 0.05 ∧
     (render008 s8).2.torus.rotation.y = s8.torus.rotation.y + 0.05 ∧
     (render008 s8).2.cone.rotation.y = s8.cone.rotation.y + 0.05) ∧
    (render009 s9).2.boxArray = s9.boxArray.map (fun m =>
      { m with rotation := { m.rotation with y := m.rotation.y + 0.05 } }) := by
  simp [render008, render009, h8, h9, rotateYBy005]

/-- A sample-008 state with the flag held, for concrete evaluation. -/
def state008Down : State008 :=
  { isDown := true, box := meshZero, sphere := meshZero
  , torus := meshZero, cone := meshZero }

/-- A sample-009 state with the flag held, for concrete evaluation. -/
def state009Down : State009 := { isDown := true, boxArray := [meshZero] }

/-- Witness for C2 at concrete flag-held states. -/
theorem c2_uniform_rotation_increment_witness :
    state008Down.isDown = true ∧ state009Down.isDown = true ∧
    (((render008 state008Down).2.box.rotation.y = state008Down.box.rotation.y + 0.05 ∧
      (render008 state008Down).2.sphere.rotation.y = state008Down.sphere.rotation.y + 0.05 ∧
      (render008 state008Down).2.torus.rotation.y = state008Down.torus.rotation.y + 0.05 ∧
      (render008 state008Down).2.cone.rotation.y = state008Down.cone.rotation.y + 0.05) ∧
     (render009 state009Down).2.boxArray = state009Down.boxArray.map (fun m =>
       { m with rotation := { m.rotation with y := m.rotation.y + 0.05 } })) :=
  ⟨rfl, rfl, c2_uniform_rotation_increment state008Down state009Down rfl rfl⟩

/-- C3: while `isDown` is false, one frame step leaves every node's rotation
(and in fact the whole mesh state) unchanged, in both sample 008 and
sample 009. -/
theorem c3_no_rotation_when_flag_clear (s8 : State008) (s9 : State009)
    (h8 : s8.isDown = false) (h9 : s9.isDown = false) :
    ((render008 s8).2.box.rotation = s8.box.rotation ∧
     (render008 s8).2.sphere.rotation = s8.sphere.rotation ∧
     (render008 s8).2.torus.rotation = s8.torus.rotation ∧
     (render008 s8).2.cone.rotation = s8.cone.rotation) ∧
    (render009 s9).2.boxArray = s9.boxArray ∧
    (render008 s8).2 = s8 ∧ (render009 s9).2 = s9 := by
  simp [render008, render009, h8, h9]

/-- A sample-008 state with the flag clear, for concrete evaluation. -/
def state008Up : State008 :=
  { isDown := false, box := meshZero, sphere := meshZero
  , torus := meshZero, cone := meshZero }

/-- A sample-009 state with the flag clear, for concrete evaluation. -/
def state009Up : State009 := { isDown := false, boxArray := [meshZero] }

/-- Witness for C3 at concrete flag-clear states. -/
theorem c3_no_rotation_when_flag_clear_witness :
    state008Up.isDown = false ∧ state009Up.isDown = false ∧
    (((render008 state008Up).2.box.rotation = state008Up.box.rotation ∧
      (render008 state008Up).2.sphere.rotation = state008Up.sphere.rotation ∧
      (render008 state008Up).2.torus.rotation = state008Up.torus.rotation ∧
      (render008 state008Up).2.cone.rotation = state008Up.cone.rotation) ∧
     (render009 state009Up).2.boxArray = state009Up.boxArray ∧
     (render008 state008Up).2 = state008Up ∧ (render009 state009Up).2 = state009Up) :=
  ⟨rfl, rfl, c3_no_rotation_when_flag_clear state008Up state009Up rfl rfl⟩

/-- C4: after any prefix of key events, a key-down carrying the space key sets
the flag to true, a key-down carrying any other key (`k ≠ " "`) leaves the
flag exactly as it was, and a key-up sets the flag to false regardless of
which key `k2` — the space key included — was released. -/
theorem c4_key_event_flag (b : Bool) (events : List KeyEvent) (k k2 : String)
    (hk : k ≠ " ") :
    processKeyEvents b (events ++ [KeyEvent.keydown " "]) = true ∧
    processKeyEvents b (events ++ [KeyEvent.keydown k]) = processKeyEvents b events ∧
    processKeyEvents b (events ++ [KeyEvent.keyup k2]) = false := by
  simp [processKeyEvents, List.foldl_append, handleKeyEvent, hk]

/-- Witness for C4 at `b = false`, a one-event prefix, the key-down key `"a"`,
and the key-up key `" "` — releasing the space key itself clears the flag. -/
theorem c4_key_event_flag_witness :
    ("a" : String) ≠ " " ∧
    (processKeyEvents false ([KeyEvent.keydown " "] ++ [KeyEvent.keydown " "]) = true ∧
     processKeyEvents false ([KeyEvent.keydown " "] ++ [KeyEvent.keydown "a"])
       = processKeyEvents false [KeyEvent.keydown " "] ∧
     processKeyEvents false ([KeyEvent.keydown " "] ++ [KeyEvent.keyup " "]) = false) :=
  ⟨by decide, c4_key_event_flag false [KeyEvent.keydown " "] "a" " " (by decide)⟩

/-- C6: a resize event with new dimensions `(w, h)` records the aspect ratio
`w / h` on the camera, resizes the drawing surface to `(w, h)`, and recomputes
the projection matrix from the new aspect, so the camera state the next frame
reads is consistent. -/
theorem c6_resize_updates_view (v : ViewState) (w h : ℚ) :
    (onResize v w h).camera.aspect = w / h ∧
    (onResize v w h).renderer.width = w ∧
    (onResize v w h).renderer.height = h ∧
    (onResize v w h).camera.projectionAspect = (onResize v w h).camera.aspect :=
  ⟨rfl, rfl, rfl, rfl⟩

/-- C7: every invocation of the frame step emits its actions in the fixed
order reschedule, advance-controls, conditional rotation (present exactly when
`isDown` is true), submit — in samples 008 and 009 alike, and sample 003's
step is the same order without a rotation block. -/
theorem c7_frame_step_order (s8 : State008) (s9 : State009) :
    (render008 s8).1 = [FrameAction.reschedule, FrameAction.advanceControls] ++
      (if s8.isDown = true then [FrameAction.applyRotation] else []) ++
      [FrameAction.submitFrame] ∧
    (render009 s9).1 = [FrameAction.reschedule, FrameAction.advanceControls] ++
      (if s9.isDown = true then [FrameAction.applyRotation] else []) ++
      [FrameAction.submitFrame] ∧
    render003Trace = [FrameAction.reschedule, FrameAction.advanceControls,
      FrameAction.submitFrame] := by
  refine ⟨?_, ?_, rfl⟩
  · cases h8 : s8.isDown <;> simp [render008, h8]
  · cases h9 : s9.isDown <;> simp [render009, h9]

/-- C9: one frame step of the challenge sample leaves every mesh — rotation
and position included — unchanged, whatever the value of `isDown`: the guarded
branch has an empty body. -/
theorem c9_challenge_step_is_identity (s : ChallengeState) :
    (renderChallenge s).2 = s ∧ (renderChallenge s).2.meshes = s.meshes := by
  cases h : s.isDown <;> simp [renderChallenge, h]

/-- C10: a key-down for any key other than space never changes the flag; a
key-down of any key at all keeps a held flag true, so only a key-up — which
always clears — can take the flag from true to false. -/
theorem c10_keydown_other_key_noop (b : Bool) (k k2 : String) (hk : k ≠ " ") :
    handleKeyEvent b (KeyEvent.keydown k) = b ∧
    handleKeyEvent true (KeyEvent.keydown k2) = true ∧
    handleKeyEvent true (KeyEvent.keyup k2) = false := by
  refine ⟨by simp [handleKeyEvent, hk], ?_, rfl⟩
  cases h2 : decide (k2 = " ") <;> simp_all [handleKeyEvent]

/-- Witness for C10 at `b = true`, `k = "a"`, `k2 = "b"`. -/
theorem c10_keydown_other_key_noop_witness :
    ("a" : String) ≠ " " ∧
    (handleKeyEvent true (KeyEvent.keydown "a") = true ∧
     handleKeyEvent true (KeyEvent.keydown "b") = true ∧
     handleKeyEvent true (KeyEvent.keyup "b") = false) :=
  ⟨by decide, c10_keydown_other_key_noop true "a" "b" (by decide)⟩

/-- While the flag is held, one step of sample 009 keeps the flag and maps
`rotateYBy005` over `boxArray`. -/
theorem render009_snd_of_isDown (s : State009) (h : s.isDown = true) :
    (render009 s).2 = { isDown := true, boxArray := s.boxArray.map rotateYBy005 } := by
  simp [render009, h]

/-- `n` flag-held steps of sample 009 iterate the per-mesh rotation `n` times
over every `boxArray` element. -/
theorem steps009_spec (n : Nat) (s : State009) (h : s.isDown = true) :
    steps009 n s
      = { isDown := true, boxArray := s.boxArray.map (rotateYBy005^[n]) } := by
  induction n generalizing s with
  | zero =>
    cases s with
    | mk d arr => simp_all [steps009]
  | succ k ih =>
    show steps009 k (render009 s).2 = _
    rw [render009_snd_of_isDown s h, ih _ rfl]
    simp [List.map_map, Function.iterate_succ]

/-- Iterating `rotateYBy005` `n` times adds `n * 0.05` to the y-rotation and
changes nothing else. -/
theorem rotateYBy005_iterate (n : Nat) (m : Mesh) :
    rotateYBy005^[n] m
      = { m with rotation := { m.rotation with y := m.rotation.y + (n : ℚ) * 0.05 } } := by
  induction n with
  | zero => simp
  | succ k ih =>
    rw [Function.iterate_succ_apply', ih]
    simp only [rotateYBy005]
    ext <;> simp
    ring

/-- C5: starting from the 10 instanced nodes of sample 009's setup (whatever
positions the random draws produced) and holding the flag, 100 frame steps
leave the flag held and give every node the rotation-about-y `5 = 100 × 0.05`
while keeping its position (and every other field) exactly as initialised. -/
theorem c5_hundred_steps (rnd : Nat → ℚ × ℚ × ℚ) :
    (steps009 100 { isDown := true, boxArray := (init009 10 rnd).boxArray }).isDown = true ∧
    (steps009 100 { isDown := true, boxArray := (init009 10 rnd).boxArray }).boxArray
      = (init009 10 rnd).boxArray.map (fun m =>
          { m with rotation := { m.rotation with y := 5 } }) ∧
    (init009 10 rnd).boxArray.length = 10 := by
  rw [steps009_spec 100 _ rfl]
  refine ⟨rfl, ?_, by simp [init009]⟩
  apply List.map_congr_left
  intro m hm
  rw [rotateYBy005_iterate]
  simp only [init009, List.mem_map, List.mem_range] at hm
  obtain ⟨i, _, rfl⟩ := hm
  norm_num [Mesh.ext_iff, Vec3.ext_iff]

/-- A draw in `[0, 1)` puts `(r * 2.0 - 1.0) * 5.0` inside `[-5, 5]`. -/
theorem scatterCoord_bounds (r : ℚ) (h0 : 0 ≤ r) (h1 : r < 1) :
    -5 ≤ scatterCoord r ∧ scatterCoord r ≤ 5 := by
  have he : scatterCoord r = (r * 2 - 1) * 5 := by
    norm_num [scatterCoord, TRANSFORM_SCALE]
  rw [he]
  constructor <;> nlinarith

/-- C8: when every `Math.random()` draw lies in `[0, 1)`, each coordinate of
every instanced node's position, computed as
`(Math.random() * 2.0 - 1.0) * TRANSFORM_SCALE`, lies within `[-5, 5]`. -/
theorem c8_positions_within_cube (count : Nat) (rnd : Nat → ℚ × ℚ × ℚ)
    (hr : ∀ i, (0 ≤ (rnd i).1 ∧ (rnd i).1 < 1) ∧
               (0 ≤ (rnd i).2.1 ∧ (rnd i).2.1 < 1) ∧
               (0 ≤ (rnd i).2.2 ∧ (rnd i).2.2 < 1)) :
    ∀ m ∈ (init009 count rnd).boxArray,
      (-5 ≤ m.position.x ∧ m.position.x ≤ 5) ∧
      (-5 ≤ m.position.y ∧ m.position.y ≤ 5) ∧
      (-5 ≤ m.position.z ∧ m.position.z ≤ 5) := by
  intro m hm
  simp only [init009, List.mem_map, List.mem_range] at hm
  obtain ⟨i, _, rfl⟩ := hm
  obtain ⟨⟨hx0, hx1⟩, ⟨hy0, hy1⟩, ⟨hz0, hz1⟩⟩ := hr i
  exact ⟨scatterCoord_bounds _ hx0 hx1, scatterCoord_bounds _ hy0 hy1,
    scatterCoord_bounds _ hz0 hz1⟩

/-- Witness for C8 at `count = 1`, `rnd = rndHalf`, node `meshZero`. -/
theorem c8_positions_within_cube_witness :
    meshZero ∈ (init009 1 rndHalf).boxArray ∧
    ((-5 ≤ meshZero.position.x ∧ meshZero.position.x ≤ 5) ∧
     (-5 ≤ meshZero.position.y ∧ meshZero.position.y ≤ 5) ∧
     (-5 ≤ meshZero.position.z ∧ meshZero.position.z ≤ 5)) :=
  ⟨meshZero_mem_init009,
   c8_positions_within_cube 1 rndHalf (fun _ => by norm_num [rndHalf])
     meshZero meshZero_mem_init009⟩

end WebGLSchool
